import Mathlib

/-!
Verification of the resume-analyzer core pipeline (`resume_analyzer.py`):
the REST extraction gateway (`extract_text_from_pdf_rest`), the section
segmenter (`extract_structured_content`) and the resilient reply decoder
(the parsing strategies of `analyze_resume_with_gpt4o` together with the
record construction in `analyze_resume`).

The Python code is embedded shallowly: JSON values become an inductive
`Json` (numbers as exact rationals), `json.loads` becomes a total fueled
parser `pyJsonLoads`, the HTTP world becomes an explicit environment of
responses, and every fallible step returns `Except String`.
-/

/-- A JSON number, exactly: `mantissa × 10 ^ exp10`.  The decimal literal
`0.42` scans to mantissa 42, exponent -2.  (Python distinguishes int and
float; no claim depends on that distinction.) -/
structure JsonNum where
  mantissa : Int
  exp10 : Int
deriving DecidableEq

/-- A JSON value, as produced by `json.loads`. -/
inductive Json where
| null
| bool (b : Bool)
| num (n : JsonNum)
| str (s : String)
| arr (items : List Json)
| obj (members : List (String × Json))

/-- Python truthiness of a JSON value (`if not analysis_json:`): `None`,
`False`, zero, and empty strings/lists/dicts are falsy. -/
def Json.truthy : Json → Bool
| .null => false
| .bool b => b
| .num n => n.mantissa != 0
| .str s => s ≠ ""
| .arr items => !items.isEmpty
| .obj members => !members.isEmpty

/-- `dict.get(key)` on the member list of a parsed object: Python dicts keep
the last binding for a duplicated key, so lookup scans from the right. -/
def dictGet (members : List (String × Json)) (key : String) : Option Json :=
  (members.reverse.find? (fun p => p.1 = key)).map (fun p => p.2)

/-- `dict.get(key, default)`. -/
def dictGetD (members : List (String × Json)) (key : String) (d : Json) : Json :=
  (dictGet members key).getD d

/-- `j.get(key)` where `j` is known to be an object; `none` otherwise
(the call sites below guard the object case explicitly). -/
def Json.get? : Json → String → Option Json
| .obj members, key => dictGet members key
| _, _ => none

/-- `j.get(key, d)` restricted to objects. -/
def Json.getD (j : Json) (key : String) (d : Json) : Json :=
  (j.get? key).getD d

/-- Length of a JSON array, when the value is one. -/
def Json.arrayLength? : Json → Option Nat
| .arr items => some items.length
| _ => none

/-! ### A model of `json.loads`

Total, fueled, over the character list.  It follows RFC 8259 as Python's
strict `json.loads` does: no leading zeros in numbers, no raw control
characters inside strings, whitespace is space/tab/newline/return, and the
whole input must be consumed (up to trailing whitespace). -/

/-- JSON structural whitespace. -/
def jsonWs (c : Char) : Bool := c = ' ' || c = '\t' || c = '\n' || c = '\r'

/-- Drop leading JSON whitespace. -/
def dropJsonWs (cs : List Char) : List Char := cs.dropWhile jsonWs

/-- ASCII decimal digit. -/
def isDig (c : Char) : Bool := '0' ≤ c && c ≤ '9'

/-- Value of a hexadecimal digit, if it is one (code-point arithmetic:
48–57 are the digits, 97–102 lowercase a–f, 65–70 uppercase A–F). -/
def hexDigit? (c : Char) : Option Nat :=
  let n := c.toNat
  if 48 ≤ n ∧ n ≤ 57 then some (n - 48)
  else if 97 ≤ n ∧ n ≤ 102 then some (n - 87)
  else if 65 ≤ n ∧ n ≤ 70 then some (n - 55)
  else none

/-- Numeric value of a digit run. -/
def digitsVal (ds : List Char) : Nat :=
  ds.foldl (fun acc c => acc * 10 + (c.toNat - '0'.toNat)) 0

/-- Simple escape characters inside JSON strings. -/
def jsonEscape? : Char → Option Char
| '"' => some '"'
| '\\' => some '\\'
| '/' => some '/'
| 'b' => some (Char.ofNat 8)
| 'f' => some (Char.ofNat 12)
| 'n' => some '\n'
| 'r' => some '\r'
| 't' => some '\t'
| _ => none

/-- Body of a JSON string after the opening quote.  Rejects raw control
characters and bad escapes, as strict `json.loads` does. -/
def scanJsonString (acc : List Char) : List Char → Option (String × List Char)
| [] => none
| '"' :: rest => some (String.mk acc.reverse, rest)
| '\\' :: 'u' :: a :: b :: c :: d :: rest =>
    match (hexDigit? a).bind (fun va => (hexDigit? b).bind (fun vb =>
        (hexDigit? c).bind (fun vc => (hexDigit? d).map (fun vd =>
          va * 4096 + vb * 256 + vc * 16 + vd)))) with
    | some n => scanJsonString (Char.ofNat n :: acc) rest
    | none => none
| '\\' :: e :: rest =>
    match jsonEscape? e with
    | some ch => scanJsonString (ch :: acc) rest
    | none => none
| c :: rest => if c.toNat < 32 then none else scanJsonString (c :: acc) rest

/-- A JSON number: `-? int frac? exp?`, with the strict leading-zero rule.
Returns its exact decimal value and the rest of the input. -/
def scanJsonNumber (cs : List Char) : Option (JsonNum × List Char) :=
  let (neg, cs1) : Bool × List Char :=
    match cs with
    | '-' :: r => (true, r)
    | _ => (false, cs)
  let (intDs, cs2) := cs1.span isDig
  if intDs = [] then none
  else if intDs.length > 1 && intDs.head? = some '0' then none
  else
    let (fracDs, cs3) : List Char × List Char :=
      match cs2 with
      | '.' :: r => r.span isDig
      | _ => ([], cs2)
    let fracBad : Bool :=
      match cs2 with
      | '.' :: _ => fracDs = []
      | _ => false
    let (expDs, expNeg, expBad, cs4) : List Char × Bool × Bool × List Char :=
      match cs3 with
      | 'e' :: '+' :: r => let (ds, r2) := r.span isDig; (ds, false, ds = [], r2)
      | 'e' :: '-' :: r => let (ds, r2) := r.span isDig; (ds, true, ds = [], r2)
      | 'e' :: r => let (ds, r2) := r.span isDig; (ds, false, ds = [], r2)
      | 'E' :: '+' :: r => let (ds, r2) := r.span isDig; (ds, false, ds = [], r2)
      | 'E' :: '-' :: r => let (ds, r2) := r.span isDig; (ds, true, ds = [], r2)
      | 'E' :: r => let (ds, r2) := r.span isDig; (ds, false, ds = [], r2)
      | _ => ([], false, false, cs3)
    if fracBad || expBad then none
    else
      let mant : Int :=
        (if neg then -1 else 1) * (digitsVal (intDs ++ fracDs) : Int)
      let e : Int :=
        (if expNeg then -(digitsVal expDs : Int) else (digitsVal expDs : Int))
          - (fracDs.length : Int)
      some (⟨mant, e⟩, cs4)

mutual

/-- One JSON value starting at the head of the input (after optional
whitespace); fueled for totality. -/
def parseVal : Nat → List Char → Option (Json × List Char)
| 0, _ => none
| fuel + 1, cs =>
  match dropJsonWs cs with
  | 'n' :: r =>
      match r with
      | 'u' :: 'l' :: 'l' :: r2 => some (.null, r2)
      | _ => none
  | 't' :: r =>
      match r with
      | 'r' :: 'u' :: 'e' :: r2 => some (.bool true, r2)
      | _ => none
  | 'f' :: r =>
      match r with
      | 'a' :: 'l' :: 's' :: 'e' :: r2 => some (.bool false, r2)
      | _ => none
  | '"' :: r =>
      match scanJsonString [] r with
      | some (s, r2) => some (.str s, r2)
      | none => none
  | '[' :: r =>
      match dropJsonWs r with
      | ']' :: r2 => some (.arr [], r2)
      | r2 => parseItems fuel r2 []
  | '\x7b' :: r =>
      match dropJsonWs r with
      | '\x7d' :: r2 => some (.obj [], r2)
      | r2 => parseFields fuel r2 []
  | cs2 => (scanJsonNumber cs2).map (fun p => (.num p.1, p.2))

/-- The remaining elements of a non-empty array, accumulated in reverse. -/
def parseItems : Nat → List Char → List Json → Option (Json × List Char)
| 0, _, _ => none
| fuel + 1, cs, acc =>
  match parseVal fuel cs with
  | none => none
  | some (v, r) =>
      match dropJsonWs r with
      | ',' :: r2 => parseItems fuel r2 (v :: acc)
      | ']' :: r2 => some (.arr (v :: acc).reverse, r2)
      | _ => none

/-- The remaining members of a non-empty object, accumulated in reverse. -/
def parseFields : Nat → List Char → List (String × Json) → Option (Json × List Char)
| 0, _, _ => none
| fuel + 1, cs, acc =>
  match dropJsonWs cs with
  | '"' :: r =>
      match scanJsonString [] r with
      | none => none
      | some (key, r1) =>
          match dropJsonWs r1 with
          | ':' :: r2 =>
              match parseVal fuel r2 with
              | none => none
              | some (v, r3) =>
                  match dropJsonWs r3 with
                  | ',' :: r4 => parseFields fuel r4 ((key, v) :: acc)
                  | '\x7d' :: r4 => some (.obj ((key, v) :: acc).reverse, r4)
                  | _ => none
          | _ => none
  | _ => none

end

/-- `json.loads`: parse the whole text, allowing trailing whitespace only;
`none` models `json.JSONDecodeError`. -/
def pyJsonLoads (s : String) : Option Json :=
  let cs := s.toList
  match parseVal (2 * cs.length + 4) cs with
  | some (v, rest) => if dropJsonWs rest = [] then some v else none
  | none => none

/-! ### The resilient reply decoder

`analyze_resume_with_gpt4o` (lines 395–444): four layered strategies over
the stripped reply text, and `analyze_resume` (lines 461–478): record
construction from the decoded value. -/

/-- `str.find(sub, start)`: index of the first occurrence of `needle` at or
after `start`, as `Option` (`none` models Python's `-1`). -/
def pyFind (hay needle : List Char) (start : Nat) : Option Nat :=
  (List.range (hay.length + 1)).find?
    (fun i => decide (start ≤ i) && needle.isPrefixOf (hay.drop i))

/-- `str.strip()` on a character list: drop whitespace at both ends. -/
def pyStripChars (cs : List Char) : List Char :=
  ((cs.dropWhile Char.isWhitespace).reverse.dropWhile Char.isWhitespace).reverse

/-- `str.strip()` on a string. -/
def pyStripString (s : String) : String :=
  String.mk (pyStripChars s.toList)

/-- The opening fence looked for by strategy 2 (`"```json"`). -/
def fenceOpen : List Char := "```json".toList

/-- A closing fence (`"```"`). -/
def fenceClose : List Char := "```".toList

/-- Strategy 2 (lines 406–415): if the reply contains a fenced block tagged
`json`, take the span from just after the first opening fence to the next
closing fence, strip it, and try to parse it. -/
def fencedBlockStrategy (cs : List Char) : Option Json :=
  if (pyFind cs fenceOpen 0).isSome then
    match pyFind cs fenceOpen 0 with
    | some i =>
        let jsonStart := i + 7
        match pyFind cs fenceClose jsonStart with
        | some jsonEnd =>
            if jsonStart < jsonEnd then
              pyJsonLoads (String.mk (pyStripChars ((cs.drop jsonStart).take (jsonEnd - jsonStart))))
            else none
        | none => none
    | none => none
  else none

/-- Index of the last occurrence of a character. -/
def lastIndexOf (cs : List Char) (c : Char) : Option Nat :=
  (cs.reverse.findIdx? (· = c)).map (fun k => cs.length - 1 - k)

/-- Strategy 3 (lines 418–426): `re.search(r'\x7b.*\x7d', text, re.DOTALL)` —
the greedy span from the first `\x7b` to the last `\x7d` (when the latter comes
strictly after the former), parsed as JSON. -/
def greedyObjectStrategy (cs : List Char) : Option Json :=
  match cs.findIdx? (· = '\x7b'), lastIndexOf cs '\x7d' with
  | some i, some j =>
      if i < j then pyJsonLoads (String.mk ((cs.drop i).take (j + 1 - i))) else none
  | _, _ => none

/-- Strategy 4 (lines 431–442): the fixed fallback analysis object. -/
def fallback_analysis : Json :=
  .obj
    [("skills", .arr
        [.obj [("skill", .str "Communication"), ("relevance_score", .num ⟨7, -1⟩),
               ("category", .str "soft")],
         .obj [("skill", .str "Problem Solving"), ("relevance_score", .num ⟨8, -1⟩),
               ("category", .str "soft")],
         .obj [("skill", .str "Technical Skills"), ("relevance_score", .num ⟨6, -1⟩),
               ("category", .str "technical")]]),
     ("role_match_score", .num ⟨65, -2⟩),
     ("strengths", .arr [.str "Professional experience", .str "Educational background"]),
     ("gaps", .arr [.str "Analysis incomplete due to response parsing issues"]),
     ("recommendations", .arr [.str "Review and update resume format",
                               .str "Consider professional resume review"]),
     ("summary", .str "Candidate shows potential but full analysis was limited due to technical issues.")]

/-- Truthiness of the running `analysis_json` variable (`None` is falsy). -/
def truthyOpt : Option Json → Bool
| some v => v.truthy
| none => false

/-- Lines 395–443 applied to the already-stripped reply content: direct
parse; inside the `except` branch, fenced-block extraction, then — only if
`analysis_json` is still falsy — the greedy object scan, then — again only
if still falsy — the fixed fallback. -/
def decode_reply_content (response_content : String) : Json :=
  match pyJsonLoads response_content with
  | some v => v
  | none =>
      let cs := response_content.toList
      let a : Option Json := fencedBlockStrategy cs
      let a : Option Json :=
        if !truthyOpt a then
          match greedyObjectStrategy cs with
          | some v => some v
          | none => a
        else a
      match a with
      | some v => if v.truthy then v else fallback_analysis
      | none => fallback_analysis

/-- The decoder as `analyze_resume_with_gpt4o` runs it: the raw assistant
message is stripped (line 391) before the strategies are tried. -/
def decodeReply (reply : String) : Json :=
  decode_reply_content (pyStripString reply)

/-- `SkillMatch` (lines 33–37).  The Python dataclass performs no type
checking, so each field holds whatever JSON value the reply supplied. -/
structure SkillMatch where
  skill : Json
  relevance_score : Json
  category : Json

/-- `ResumeAnalysis` (lines 39–47), with the same untyped-field caveat. -/
structure ResumeAnalysis where
  extracted_text : String
  skills : List SkillMatch
  role_match_score : Json
  strengths : Json
  gaps : Json
  recommendations : Json
  summary : Json

/-- `skill["skill"]` etc. (lines 462–466): subscripting a non-dict raises
`TypeError`; a dict without the key raises `KeyError`. -/
def buildSkillMatch (j : Json) : Except String SkillMatch :=
  match j with
  | .obj members =>
      match dictGet members "skill" with
      | none => .error "KeyError: skill"
      | some s =>
          match dictGet members "relevance_score" with
          | none => .error "KeyError: relevance_score"
          | some r =>
              match dictGet members "category" with
              | none => .error "KeyError: category"
              | some c => .ok ⟨s, r, c⟩
  | _ => .error "TypeError: indices must be strings on a dict"

/-- `for skill in gpt_analysis.get("skills", [])`: iterating a list yields
its items; a dict yields its keys; a string yields its characters; other
values raise `TypeError`. -/
def iterSkillsValue : Json → Except String (List Json)
| .arr items => .ok items
| .obj members => .ok (members.map (fun p => Json.str p.1))
| .str s => .ok (s.toList.map (fun c => Json.str (String.mk [c])))
| _ => .error "TypeError: value is not iterable"

/-- Record construction in `analyze_resume` (lines 461–478): `.get` calls
require the decoded value to be a dict (`AttributeError` otherwise), the
skills loop requires each entry to be a dict with the three keys, and the
remaining fields take per-key defaults. -/
def analyze_resume_build (extracted_text : String) (gpt_analysis : Json) :
    Except String ResumeAnalysis :=
  match gpt_analysis with
  | .obj members =>
      match iterSkillsValue (dictGetD members "skills" (.arr [])) with
      | .error e => .error e
      | .ok items =>
          match items.mapM buildSkillMatch with
          | .error e => .error e
          | .ok skills =>
              .ok ⟨extracted_text, skills,
                   dictGetD members "role_match_score" (.num ⟨0, 0⟩),
                   dictGetD members "strengths" (.arr []),
                   dictGetD members "gaps" (.arr []),
                   dictGetD members "recommendations" (.arr []),
                   dictGetD members "summary" (.str "")⟩
  | _ => .error "AttributeError: decoded value has no method get"

/-- The decode-then-construct path of `analyze_resume` for a given reply
text (extraction elided: its output only fills `extracted_text`). -/
def analyze_reply (extracted_text reply : String) : Except String ResumeAnalysis :=
  analyze_resume_build extracted_text (decodeReply reply)

/-! ### The REST extraction gateway

`extract_text_from_pdf_rest` (lines 241–338).  The HTTP world is an
explicit environment: one response per POSTed URL and one response per
poll attempt.  The function's observable behaviour is its result plus a
trace — the URLs POSTed in order, the number of polling GETs, and the
seconds slept. -/

/-!
`str()`/`repr()` of a decoded JSON value, used only to interpolate
values into exception messages (f-strings).  Number rendering is a model:
numbers are exact rationals here. -/
mutual

def pyRepr : Json → String
| .null => "None"
| .bool true => "True"
| .bool false => "False"
| .num n => if n.exp10 = 0 then toString n.mantissa
            else toString n.mantissa ++ "e" ++ toString n.exp10
| .str s => "\x27" ++ s ++ "\x27"
| .arr items => "[" ++ pyReprItems items ++ "]"
| .obj members => "\x7b" ++ pyReprFields members ++ "\x7d"

def pyReprItems : List Json → String
| [] => ""
| [x] => pyRepr x
| x :: xs => pyRepr x ++ ", " ++ pyReprItems xs

def pyReprFields : List (String × Json) → String
| [] => ""
| [(k, v)] => "\x27" ++ k ++ "\x27: " ++ pyRepr v
| (k, v) :: xs => "\x27" ++ k ++ "\x27: " ++ pyRepr v ++ ", " ++ pyReprFields xs

end

/-- `str(x)` as used in f-strings: strings are interpolated bare. -/
def pyStr : Json → String
| .str s => s
| j => pyRepr j

/-- A response to the analyze POST: status code, body text, and the
`Operation-Location` header if present. -/
structure PostResponse where
  status_code : Nat
  text : String
  operationLocation : Option String

/-- A response to a polling GET: status code, body text, and the decoded
JSON body (`result_response.json()`). -/
structure PollResponse where
  status_code : Nat
  text : String
  body : Json

/-- The external HTTP service: a response for every POSTed URL, and a
response for the n-th GET against the operation location. -/
structure HttpEnv where
  post : String → PostResponse
  get : Nat → PollResponse

/-- The fixed API-version list, newest first (line 265). -/
def api_versions : List String := ["2024-02-29-preview", "2023-07-31", "2022-08-31"]

/-- The versioned analyze URL (line 268). -/
def analyzeUrl (endpoint v : String) : String :=
  endpoint ++ "/documentintelligence/documentModels/prebuilt-read:analyze?api-version=" ++ v

/-- The legacy Form Recognizer URL (line 285). -/
def legacyUrl (endpoint : String) : String :=
  endpoint ++ "/formrecognizer/documentModels/prebuilt-read:analyze?api-version=2022-08-31"

/-- `str.rstrip(c)`: drop every trailing occurrence of `c` (line 262). -/
def pyRstrip (s : String) (c : Char) : String :=
  String.mk (s.toList.reverse.dropWhile (· = c)).reverse

/-- The submission loop (lines 267–286): POST each version in order,
breaking at the first 202; 401 and every other non-202 status both fall
through to the next version (`continue`); the `for`-`else` branch POSTs
the legacy URL once when the list is exhausted.  Returns the response the
loop ends with and the list of URLs POSTed, in order. -/
def submitLoop (env : HttpEnv) (endpoint : String) : List String → PostResponse × List String
| [] =>
    let u := legacyUrl endpoint
    (env.post u, [u])
| v :: rest =>
    let u := analyzeUrl endpoint v
    let r := env.post u
    if r.status_code = 202 then (r, [u])
    else
      let (r2, us) := submitLoop env endpoint rest
      (r2, u :: us)

/-- Outcome of the polling phase: the result, plus how many GETs were
issued and how many seconds were spent in `time.sleep`. -/
structure PollOutcome where
  result : Except String Json
  gets : Nat
  sleepSeconds : Nat

/-- Values Python's `len()` accepts among decoded JSON values: strings,
lists and dicts; numbers, booleans and `None` raise `TypeError`. -/
def pyHasLen : Json → Bool
| .str _ => true
| .arr _ => true
| .obj _ => true
| _ => false

/-- The polling loop (lines 307–335): up to the given number of attempts;
each iteration sleeps 2 seconds, GETs the operation location, fails fast
on a non-200 response, and otherwise dispatches on the body's `status`
field: `succeeded` extracts `analyzeResult.content` (line 323's
`.get("analyzeResult", {})` requires a dict value — `AttributeError`
otherwise — and line 325's `len(content)` log call requires a sized value
— `TypeError` otherwise) and returns it; `failed` raises with the
reported error; `running`/`notStarted` continue; anything else raises as
an unknown status.  Exhausting the budget raises a timeout.  A non-dict
JSON body would make `result_data.get` raise `AttributeError`. -/
def pollLoop (env : HttpEnv) : Nat → Nat → PollOutcome
| _, 0 => ⟨.error "Analysis timed out", 0, 0⟩
| attempt, fuel + 1 =>
    if (env.get attempt).status_code ≠ 200 then
      ⟨.error ("Failed to get results: " ++ toString (env.get attempt).status_code
          ++ " - " ++ (env.get attempt).text), 1, 2⟩
    else
      match (env.get attempt).body with
      | .obj members =>
          match dictGet members "status" with
          | some (.str "succeeded") =>
              match dictGetD members "analyzeResult" (.obj []) with
              | .obj ms =>
                  if pyHasLen (dictGetD ms "content" (.str "")) then
                    ⟨.ok (dictGetD ms "content" (.str "")), 1, 2⟩
                  else ⟨.error "TypeError: content has no len", 1, 2⟩
              | _ => ⟨.error "AttributeError: analyzeResult is not a dict", 1, 2⟩
          | some (.str "failed") =>
              ⟨.error ("Analysis failed: " ++ pyStr (dictGetD members "error" (.obj []))), 1, 2⟩
          | some (.str "running") =>
              ⟨(pollLoop env (attempt + 1) fuel).result,
               (pollLoop env (attempt + 1) fuel).gets + 1,
               (pollLoop env (attempt + 1) fuel).sleepSeconds + 2⟩
          | some (.str "notStarted") =>
              ⟨(pollLoop env (attempt + 1) fuel).result,
               (pollLoop env (attempt + 1) fuel).gets + 1,
               (pollLoop env (attempt + 1) fuel).sleepSeconds + 2⟩
          | some v => ⟨.error ("Unknown status: " ++ pyStr v), 1, 2⟩
          | none => ⟨.error "Unknown status: None", 1, 2⟩
      | _ => ⟨.error "AttributeError: body is not a dict", 1, 2⟩

/-- The polling attempt budget (line 307). -/
def max_attempts : Nat := 30

/-- Full observable outcome of `extract_text_from_pdf_rest`. -/
structure RestOutcome where
  result : Except String Json
  posts : List String
  gets : Nat
  sleepSeconds : Nat

/-- The outer `except` clause (line 338) rewraps every raised message. -/
def wrapExtractError (e : String) : String := "Error extracting text from PDF: " ++ e

/-- `extract_text_from_pdf_rest` (lines 241–338): credential check, the
versioned submission loop with legacy fallback, the 202/401 gate on the
final response, the `Operation-Location` check, then the polling loop.
Every raised message is rewrapped by the outer handler. -/
def extract_text_from_pdf_rest (env : HttpEnv) (di_endpoint di_key : String) : RestOutcome :=
  if di_key = "" || di_endpoint = "" then
    ⟨.error (wrapExtractError
        "Azure Document Intelligence credentials not found. Please check your .env file."),
     [], 0, 0⟩
  else
    let sr := submitLoop env (pyRstrip di_endpoint '/') api_versions
    if sr.1.status_code ≠ 202 then
      let details := "Status: " ++ toString sr.1.status_code ++ ", Response: " ++ sr.1.text
      if sr.1.status_code = 401 then
        ⟨.error (wrapExtractError
            ("Authentication failed. Please check your Azure Document Intelligence key and endpoint.\n"
              ++ details)), sr.2, 0, 0⟩
      else
        ⟨.error (wrapExtractError ("Failed to start analysis: " ++ details)), sr.2, 0, 0⟩
    else
      match sr.1.operationLocation with
      | none => ⟨.error (wrapExtractError "No operation location returned"), sr.2, 0, 0⟩
      | some _ =>
          let p := pollLoop env 0 max_attempts
          match p.result with
          | .ok content => ⟨.ok content, sr.2, p.gets, p.sleepSeconds⟩
          | .error e => ⟨.error (wrapExtractError e), sr.2, p.gets, p.sleepSeconds⟩

/-! ### The section segmenter

`extract_structured_content` (lines 140–227): per page, a line-by-line
state machine over a current section and a paragraph buffer. -/

/-- `sep.join(parts)`. -/
def pyJoin (sep : String) : List String → String
| [] => ""
| [x] => x
| x :: xs => x ++ sep ++ pyJoin sep xs

/-- `str.lower()` (the keyword list is ASCII, so per-character lowering
is exact here). -/
def pyLower (s : String) : String :=
  String.mk (s.toList.map Char.toLower)

/-- `str.upper()`. -/
def pyUpper (s : String) : String :=
  String.mk (s.toList.map Char.toUpper)

/-- Worker for `str.split()`: current word accumulated in reverse. -/
def pyWordsAux : List Char → List Char → List String
| [], acc => if acc.isEmpty then [] else [String.mk acc.reverse]
| c :: cs, acc =>
    if c.isWhitespace then
      if acc.isEmpty then pyWordsAux cs [] else String.mk acc.reverse :: pyWordsAux cs []
    else pyWordsAux cs (c :: acc)

/-- `line_text.split()` (no argument): split on whitespace runs, without
empty words. -/
def pyWords (s : String) : List String :=
  pyWordsAux s.toList []

/-- `sub in text`, via the same first-occurrence search as `str.find`. -/
def pyContains (hay sub : String) : Bool :=
  (pyFind hay.toList sub.toList 0).isSome

/-- `text.endswith(suffix)`. -/
def pyEndsWith (s su : String) : Bool :=
  su.toList.isSuffixOf s.toList

/-- `text.startswith(p)`. -/
def pyStartsWith (s p : String) : Bool :=
  p.toList.isPrefixOf s.toList

/-- The fixed resume-section keyword list (lines 167–175). -/
def section_keywords : List String :=
  ["work experience", "experience", "employment", "professional experience",
   "education", "academic background", "qualifications",
   "skills", "technical skills", "core competencies", "expertise",
   "projects", "key projects", "notable projects",
   "certifications", "certificates", "achievements",
   "summary", "profile", "objective", "about",
   "contact", "personal information"]

/-- `is_section_header` (line 177): some keyword occurs in the lowercased
line text. -/
def is_section_header (t : String) : Bool :=
  section_keywords.any (fun kw => pyContains (pyLower t) kw)

/-- `is_likely_header` (lines 180–185): at most 4 words, no trailing
period, no leading bullet. -/
def is_likely_header (t : String) : Bool :=
  (pyWords t).length ≤ 4 && !(pyEndsWith t ".") && !(pyStartsWith t "•")
    && !(pyStartsWith t "-")

/-- The header test the segmenter applies to a non-blank stripped line
(line 187). -/
def classifiesAsHeader (t : String) : Bool :=
  is_section_header t || is_likely_header t

/-- State of the per-page line loop (lines 152–213): completed sections
so far, the current section (`None` before the first header), and the
paragraph buffer. -/
structure SegState where
  secs : List String
  curSec : Option String
  par : List String

/-- One iteration of the line loop.  A blank line flushes the buffer into
the current section; a header line flushes, pushes the current section and
opens a new one; any other line is buffered, and flushed (with a trailing
newline) after `.`/`:` or once the buffer holds more than 3 lines.  Every
flush that happens while no section is open discards the buffer, exactly
as the source does. -/
def segStep (st : SegState) (line : String) : SegState :=
  let t := pyStripString line
  if t = "" then
    match st.par with
    | [] => st
    | _ :: _ =>
        match st.curSec with
        | some sec => ⟨st.secs, some (sec ++ " " ++ pyJoin " " st.par), []⟩
        | none => ⟨st.secs, none, []⟩
  else if classifiesAsHeader t then
    match st.curSec, st.par with
    | some sec, _ :: _ =>
        ⟨st.secs ++ [sec ++ " " ++ pyJoin " " st.par],
         some ("\n\n=== " ++ pyUpper t ++ " ===\n"), []⟩
    | some sec, [] =>
        ⟨st.secs ++ [sec], some ("\n\n=== " ++ pyUpper t ++ " ===\n"), []⟩
    | none, _ =>
        ⟨st.secs, some ("\n\n=== " ++ pyUpper t ++ " ===\n"), []⟩
  else
    if pyEndsWith t "." || pyEndsWith t ":" || (st.par ++ [t]).length > 3 then
      match st.curSec with
      | some sec =>
          ⟨st.secs, some (sec ++ " " ++ pyJoin " " (st.par ++ [t]) ++ "\n"), []⟩
      | none => ⟨st.secs, none, []⟩
    else ⟨st.secs, st.curSec, st.par ++ [t]⟩

/-- End of a page (lines 209–213): flush the buffer into the open section,
then push it. -/
def segFinish (st : SegState) : List String :=
  match st.curSec, st.par with
  | some sec, _ :: _ => st.secs ++ [sec ++ " " ++ pyJoin " " st.par]
  | some sec, [] => st.secs ++ [sec]
  | none, _ => st.secs

/-- The per-page line loop: fold the step over the lines, then flush. -/
def segLines (lines : List String) (secs : List String) (curSec : Option String)
    (par : List String) : List String :=
  segFinish (lines.foldl segStep ⟨secs, curSec, par⟩)

/-- A page of the service result: the stripped-to-be line contents. -/
structure DIPage where
  lines : List String

/-- The analysis result handed to `extract_structured_content`: the raw
`content` string and the per-page line lists. -/
structure DIResult where
  content : String
  pages : List DIPage

/-- `extract_structured_content` (lines 140–227): run the line loop over
every page (the section list persists across pages; the current section
and buffer restart per page), then join the sections with newlines, or
fall back to the raw content when no section was ever opened. -/
def extract_structured_content (result : DIResult) : String :=
  let structured_sections :=
    result.pages.foldl (fun acc page => segLines page.lines acc none []) []
  if structured_sections = [] then result.content
  else pyJoin "\n" structured_sections

/-! ### Spec-side definitions and concrete fixtures -/

/-- The header rule as the specification words it: the lowercased text
contains one of the fixed resume-section keywords as a substring, or the
line has at most 4 words, does not end with a period, and does not begin
with a bullet marker (`•` or `-`). -/
def specHeaderRule (t : String) : Bool :=
  section_keywords.any (fun kw => decide (kw.toList <:+: (pyLower t).toList))
    || ((pyWords t).length ≤ 4 && t.toList.getLast? ≠ some '.'
          && t.toList.head? ≠ some '•' && t.toList.head? ≠ some '-')

/-- Character count ignoring whitespace — the "modulo whitespace
normalization" measure of the segmentation claim. -/
def nonWsCount (s : String) : Nat :=
  (s.toList.filter (fun c => !c.isWhitespace)).length

/-- An input line's contribution to the non-header character total: zero
for blank or header-classified lines, its non-whitespace count otherwise. -/
def lineContribution (l : String) : Nat :=
  let t := pyStripString l
  if t = "" then 0 else if classifiesAsHeader t then 0 else nonWsCount t

/-- Total non-whitespace characters of the non-header input lines. -/
def nonHeaderInputChars (lines : List String) : Nat :=
  (lines.map lineContribution).sum

/-- The specification's worked example reply for the fenced-block strategy. -/
def exampleReply : String :=
  "Sure! ```json\n\x7b\"skills\": [], \"role_match_score\": 0.42, \"strengths\": [\"x\"], \"gaps\": [], \"recommendations\": [], \"summary\": \"ok\"\x7d\n``` thanks"

/-- The record the example reply's fenced block denotes. -/
def exampleRecord : Json :=
  .obj [("skills", .arr []), ("role_match_score", .num ⟨42, -2⟩),
        ("strengths", .arr [.str "x"]), ("gaps", .arr []),
        ("recommendations", .arr []), ("summary", .str "ok")]

/-- An input whose first line is flushed before any section exists and is
therefore silently dropped by the segmenter. -/
def droppedLines : List String := ["• this is a bullet point line here.", "SKILLS"]

/-- A service that rejects every submission with HTTP 500 and body `err`. -/
def allRejectedEnv : HttpEnv :=
  ⟨fun _ => ⟨500, "err", none⟩, fun _ => ⟨200, "", .obj []⟩⟩

/-- A service that accepts only the second API version. -/
def secondAcceptEnv : HttpEnv :=
  ⟨fun u => if u = analyzeUrl "https://e" "2023-07-31" then ⟨202, "", some "op"⟩
            else ⟨500, "x", none⟩,
   fun _ => ⟨200, "", .obj [("status", .str "succeeded")]⟩⟩

/-- A service that accepts the first version and reports `running` forever. -/
def allRunningEnv : HttpEnv :=
  ⟨fun _ => ⟨202, "", some "op"⟩,
   fun _ => ⟨200, "", .obj [("status", .str "running")]⟩⟩

/-- A service whose polling responses follow a fixed script. -/
def scriptedPollEnv (script : Nat → PollResponse) : HttpEnv :=
  ⟨fun _ => ⟨202, "", some "op"⟩, script⟩

/-- Poll script for the non-200 retry claim: one `running` poll, then an
HTTP 500 poll response. -/
def non200Script : Nat → PollResponse
| 0 => ⟨200, "", .obj [("status", .str "running")]⟩
| _ => ⟨500, "boom", .obj []⟩

/-- Poll responses exercising each arm of the status dispatch. -/
def succeededResponse : PollResponse :=
  ⟨200, "", .obj [("status", .str "succeeded"),
                  ("analyzeResult", .obj [("content", .str "TEXT")])]⟩

/-- A `failed` poll response with a service-reported error payload. -/
def failedResponse : PollResponse :=
  ⟨200, "", .obj [("status", .str "failed"), ("error", .str "bad scan")]⟩

/-- A `notStarted` poll response. -/
def notStartedResponse : PollResponse :=
  ⟨200, "", .obj [("status", .str "notStarted")]⟩

/-- A poll response with an unrecognized status value. -/
def weirdResponse : PollResponse :=
  ⟨200, "", .obj [("status", .str "paused")]⟩

/-- A 200 poll response whose JSON body has no status field at all. -/
def noStatusResponse : PollResponse :=
  ⟨200, "", .obj [("x", .null)]⟩

/-- A 200 `succeeded` poll whose `analyzeResult` value is a string, not a
dict: line 324's `.get` raises `AttributeError` on it. -/
def badPayloadResponse : PollResponse :=
  ⟨200, "", .obj [("status", .str "succeeded"), ("analyzeResult", .str "oops")]⟩

/-- A 200 `succeeded` poll whose `content` value is a number: line 325's
`len(content)` raises `TypeError` on it. -/
def numContentResponse : PollResponse :=
  ⟨200, "", .obj [("status", .str "succeeded"),
                  ("analyzeResult", .obj [("content", .num ⟨5, 0⟩)])]⟩

/-! ## Helper lemmas -/

/-- An `isOk` except value is some `.ok`. -/
theorem exceptIsOk_elim {β : Type} (e : Except String β) (h : e.isOk = true) :
    ∃ b, e = Except.ok b := by
  cases e with
  | ok b => exact ⟨b, rfl⟩
  | error m => simp [Except.isOk, Except.toBool] at h

/-- `mapM` over `Except` succeeds when every element does. -/
theorem mapM_ok_of_forall {α β : Type} (f : α → Except String β) :
    ∀ l : List α, (∀ a ∈ l, (f a).isOk = true) → ∃ l2, l.mapM f = Except.ok l2 := by
  intro l
  induction l with
  | nil => intro _; exact ⟨[], rfl⟩
  | cons a l ih =>
      intro h
      obtain ⟨b, hb⟩ := exceptIsOk_elim (f a) (h a (by simp))
      obtain ⟨l2, hl2⟩ := ih (fun x hx => h x (by simp [hx]))
      refine ⟨b :: l2, ?_⟩
      rw [List.mapM_cons, hb, hl2]
      rfl

/-! ## C1 — decoder totality and record construction -/

/-- C1, counterexample: the reply `"5"` is valid JSON, so the direct parse
returns the number 5 unchanged, and record construction then fails (the
decoded value is not a dict, so `.get` raises `AttributeError`) — an error
does propagate for this reply text, contradicting the claim. -/
theorem C1_counterexample :
    decodeReply "5" = Json.num ⟨5, 0⟩ ∧
    analyze_reply "" "5" = Except.error "AttributeError: decoded value has no method get" := by
  constructor <;> rfl

/-- C1, amended: the decoding strategies themselves never fail, and
whenever the decoded value is a JSON object whose `skills` entry iterates
to well-formed skill dicts, record construction succeeds, giving every
remaining field its per-key default. -/
theorem C1_construction_ok (t reply : String) (members : List (String × Json))
    (items : List Json)
    (hobj : decodeReply reply = Json.obj members)
    (hiter : iterSkillsValue (dictGetD members "skills" (Json.arr [])) = Except.ok items)
    (hwf : ∀ j ∈ items, (buildSkillMatch j).isOk = true) :
    ∃ r, analyze_reply t reply = Except.ok r ∧
      r.extracted_text = t ∧
      r.role_match_score = dictGetD members "role_match_score" (Json.num ⟨0, 0⟩) ∧
      r.strengths = dictGetD members "strengths" (Json.arr []) ∧
      r.gaps = dictGetD members "gaps" (Json.arr []) ∧
      r.recommendations = dictGetD members "recommendations" (Json.arr []) ∧
      r.summary = dictGetD members "summary" (Json.str "") := by
  obtain ⟨l2, hl2⟩ := mapM_ok_of_forall buildSkillMatch items hwf
  refine ⟨⟨t, l2, dictGetD members "role_match_score" (Json.num ⟨0, 0⟩),
          dictGetD members "strengths" (Json.arr []),
          dictGetD members "gaps" (Json.arr []),
          dictGetD members "recommendations" (Json.arr []),
          dictGetD members "summary" (Json.str "")⟩, ?_, rfl, rfl, rfl, rfl, rfl, rfl⟩
  unfold analyze_reply analyze_resume_build
  rw [hobj]
  simp only [hiter, hl2]

/-- C1 witness: a reply that decodes to an object with an empty skills
list constructs successfully. -/
theorem C1_witness :
    ∃ r, analyze_reply "txt" "\x7b\"skills\": []\x7d" = Except.ok r ∧
      r.extracted_text = "txt" ∧
      r.role_match_score = dictGetD [("skills", Json.arr [])] "role_match_score" (Json.num ⟨0, 0⟩) ∧
      r.strengths = dictGetD [("skills", Json.arr [])] "strengths" (Json.arr []) ∧
      r.gaps = dictGetD [("skills", Json.arr [])] "gaps" (Json.arr []) ∧
      r.recommendations = dictGetD [("skills", Json.arr [])] "recommendations" (Json.arr []) ∧
      r.summary = dictGetD [("skills", Json.arr [])] "summary" (Json.str "") :=
  C1_construction_ok "txt" "\x7b\"skills\": []\x7d" [("skills", Json.arr [])] []
    rfl rfl (by intro j hj; simp at hj)

/-! ## C5 — the safe-default record -/

/-- C5, counterexample: on fully unparsable text the decoder does return
the fixed fallback, but that record has two generic strengths and two
generic recommendations, not one of each as the claim states. -/
theorem C5_counterexample :
    decode_reply_content "hello" = fallback_analysis ∧
    Json.arrayLength? (Json.getD (decode_reply_content "hello") "strengths" Json.null) ≠ some 1 ∧
    Json.arrayLength? (Json.getD (decode_reply_content "hello") "strengths" Json.null) = some 2 ∧
    Json.arrayLength? (Json.getD (decode_reply_content "hello") "recommendations" Json.null) = some 2 := by
  refine ⟨rfl, ?_, rfl, rfl⟩
  decide

/-- C5, amended: when all three real parse strategies fail, the decoder
returns the fixed placeholder record: role_match_score 0.65, two generic
strengths, one generic gap, two generic recommendations, and a non-empty
summary noting the limitation. -/
theorem C5_safe_default (s : String)
    (hdirect : pyJsonLoads s = none)
    (hfence : fencedBlockStrategy s.toList = none)
    (hgreedy : greedyObjectStrategy s.toList = none) :
    decode_reply_content s = fallback_analysis ∧
    Json.getD (decode_reply_content s) "role_match_score" Json.null = Json.num ⟨65, -2⟩ ∧
    Json.arrayLength? (Json.getD (decode_reply_content s) "strengths" Json.null) = some 2 ∧
    Json.arrayLength? (Json.getD (decode_reply_content s) "gaps" Json.null) = some 1 ∧
    Json.arrayLength? (Json.getD (decode_reply_content s) "recommendations" Json.null) = some 2 ∧
    (Json.getD (decode_reply_content s) "summary" (Json.str "")).truthy = true := by
  have hfence2 : fencedBlockStrategy s.data = none := hfence
  have hgreedy2 : greedyObjectStrategy s.data = none := hgreedy
  have hdec : decode_reply_content s = fallback_analysis := by
    unfold decode_reply_content
    rw [hdirect]
    simp [hfence, hfence2, hgreedy, hgreedy2, truthyOpt]
  rw [hdec]
  exact ⟨rfl, rfl, rfl, rfl, rfl, rfl⟩

/-- C5 witness: `"hello"` defeats all three strategies and produces the
fallback record with the listed shape. -/
theorem C5_witness :
    decode_reply_content "hello" = fallback_analysis ∧
    Json.getD (decode_reply_content "hello") "role_match_score" Json.null = Json.num ⟨65, -2⟩ ∧
    Json.arrayLength? (Json.getD (decode_reply_content "hello") "strengths" Json.null) = some 2 ∧
    Json.arrayLength? (Json.getD (decode_reply_content "hello") "gaps" Json.null) = some 1 ∧
    Json.arrayLength? (Json.getD (decode_reply_content "hello") "recommendations" Json.null) = some 2 ∧
    (Json.getD (decode_reply_content "hello") "summary" (Json.str "")).truthy = true :=
  C5_safe_default "hello" rfl rfl rfl

/-! ## C6 — fenced-block extraction -/

/-- C6: when the direct parse fails and the text contains a fenced block
tagged `json`, the decoder parses exactly the span between the end of the
first opening fence and the next closing fence; if that span parses to a
truthy value the decoder returns it. -/
theorem C6_fenced_extraction (s : String) (i j : Nat) (v : Json)
    (hdirect : pyJsonLoads s = none)
    (hopen : pyFind s.toList fenceOpen 0 = some i)
    (hclose : pyFind s.toList fenceClose (i + 7) = some j)
    (hlt : i + 7 < j)
    (hparse : pyJsonLoads
        (String.mk (pyStripChars ((s.toList.drop (i + 7)).take (j - (i + 7))))) = some v)
    (htruthy : v.truthy = true) :
    decode_reply_content s = v := by
  have hclose2 : pyFind s.data fenceClose (i + 7) = some j := hclose
  have hparse2 : pyJsonLoads
      (String.mk (pyStripChars ((s.data.drop (i + 7)).take (j - (i + 7))))) = some v := hparse
  have hfb : fencedBlockStrategy s.toList = some v := by
    unfold fencedBlockStrategy
    rw [hopen]
    simp [hopen, hclose, hclose2, hlt, hparse, hparse2]
  have hfb2 : fencedBlockStrategy s.data = some v := hfb
  unfold decode_reply_content
  rw [hdirect]
  simp [hfb, hfb2, truthyOpt, htruthy]

set_option maxRecDepth 100000 in
/-- C6 witness: the specification's example reply decodes through the
fenced-block strategy to a record with `role_match_score = 0.42` and
`strengths = ["x"]`. -/
theorem C6_witness :
    decode_reply_content exampleReply = exampleRecord ∧
    Json.get? exampleRecord "role_match_score" = some (Json.num ⟨42, -2⟩) ∧
    Json.get? exampleRecord "strengths" = some (Json.arr [Json.str "x"]) := by
  refine ⟨?_, rfl, rfl⟩
  exact C6_fenced_extraction exampleReply 6 127 exampleRecord rfl rfl rfl (by decide) rfl rfl

/-! ## C9 — the header classification rule -/

/-- A singleton list is a prefix exactly when it is the head. -/
theorem singleton_prefix_iff (c : Char) (m : List Char) :
    [c] <+: m ↔ m.head? = some c := by
  cases m with
  | nil => simp
  | cons x xs =>
      simp only [List.cons_prefix_cons, List.nil_prefix, and_true, List.head?_cons,
        Option.some.injEq]
      exact eq_comm

/-- `str.find` from position 0 succeeds exactly on substrings. -/
theorem pyFind_zero_isSome_iff (hay needle : List Char) :
    (pyFind hay needle 0).isSome = true ↔ needle <:+: hay := by
  unfold pyFind
  rw [List.find?_isSome]
  constructor
  · rintro ⟨i, _, hp⟩
    simp only [Bool.and_eq_true, decide_eq_true_eq] at hp
    obtain ⟨rest, hrest⟩ := List.isPrefixOf_iff_prefix.1 hp.2
    exact ⟨hay.take i, rest, by rw [List.append_assoc, hrest, List.take_append_drop]⟩
  · rintro ⟨s, t2, hst⟩
    refine ⟨s.length, List.mem_range.2 ?_, ?_⟩
    · subst hst
      simp only [List.length_append]
      omega
    · simp only [Bool.and_eq_true, decide_eq_true_eq]
      refine ⟨Nat.zero_le _, List.isPrefixOf_iff_prefix.2 ?_⟩
      subst hst
      rw [List.append_assoc, List.drop_left]
      exact ⟨t2, rfl⟩

/-- Python's `in` agrees with list-infix membership. -/
theorem pyContains_eq_infix (hay sub : String) :
    pyContains hay sub = decide (sub.toList <:+: hay.toList) := by
  have h := pyFind_zero_isSome_iff hay.toList sub.toList
  unfold pyContains
  cases hfind : (pyFind hay.toList sub.toList 0).isSome with
  | true => exact ((decide_eq_true (h.1 hfind)).symm)
  | false =>
      refine (decide_eq_false ?_).symm
      intro hin
      rw [h.2 hin] at hfind
      cases hfind

/-- `endswith` with a single-character argument inspects the last element. -/
theorem pyEndsWith_single (t : String) (c : Char) :
    pyEndsWith t (String.mk [c]) = decide (t.toList.getLast? = some c) := by
  unfold pyEndsWith
  have hiff : (String.mk [c]).toList.isSuffixOf t.toList = true ↔ t.toList.getLast? = some c := by
    rw [List.isSuffixOf_iff_suffix]
    show [c] <:+ t.toList ↔ _
    rw [← List.head?_reverse, ← singleton_prefix_iff c t.toList.reverse]
    constructor
    · intro hs
      have := List.reverse_prefix.2 hs
      simpa using this
    · intro hp
      have := List.reverse_prefix.1 (by simpa using hp : [c].reverse <+: t.toList.reverse)
      simpa using this
  cases hb : (String.mk [c]).toList.isSuffixOf t.toList with
  | true => exact (decide_eq_true (hiff.1 hb)).symm
  | false =>
      refine (decide_eq_false ?_).symm
      intro hh
      rw [← hiff] at hh
      rw [hb] at hh
      cases hh

/-- `startswith` with a single-character argument inspects the head. -/
theorem pyStartsWith_single (t : String) (c : Char) :
    pyStartsWith t (String.mk [c]) = decide (t.toList.head? = some c) := by
  unfold pyStartsWith
  have hiff : (String.mk [c]).toList.isPrefixOf t.toList = true ↔ t.toList.head? = some c := by
    rw [List.isPrefixOf_iff_prefix]
    exact singleton_prefix_iff c t.toList
  cases hb : (String.mk [c]).toList.isPrefixOf t.toList with
  | true => exact (decide_eq_true (hiff.1 hb)).symm
  | false =>
      refine (decide_eq_false ?_).symm
      intro hh
      rw [← hiff, hb] at hh
      cases hh

/-- C9: a non-blank line is classified as a section header by the
segmenter exactly under the specification's rule — a keyword occurs in the
lowercased text, or the line has at most 4 words, no trailing period and
no leading bullet marker. -/
theorem C9_header_rule (t : String) (_h : t ≠ "") :
    classifiesAsHeader t = specHeaderRule t := by
  unfold classifiesAsHeader specHeaderRule is_section_header is_likely_header
  have hany : section_keywords.any (fun kw => pyContains (pyLower t) kw)
      = section_keywords.any (fun kw => decide (kw.toList <:+: (pyLower t).toList)) := by
    induction section_keywords with
    | nil => rfl
    | cons kw kws ih => simp [List.any_cons, ih, pyContains_eq_infix (pyLower t) kw]
  rw [hany]
  have e1 : pyEndsWith t "." = decide (t.toList.getLast? = some '.') := pyEndsWith_single t '.'
  have e2 : pyStartsWith t "•" = decide (t.toList.head? = some '•') := pyStartsWith_single t '•'
  have e3 : pyStartsWith t "-" = decide (t.toList.head? = some '-') := pyStartsWith_single t '-'
  rw [e1, e2, e3]
  simp [decide_not]

/-- C9 witness: the rule instantiated at the non-blank line `"SKILLS"`. -/
theorem C9_witness :
    "SKILLS" ≠ "" ∧ classifiesAsHeader "SKILLS" = specHeaderRule "SKILLS" :=
  ⟨by decide, C9_header_rule "SKILLS" (by decide)⟩

/-! ## C2 — submission order, first acceptance, legacy fallback -/

/-- Step equation of the submission loop on a non-empty version list. -/
theorem submitLoop_cons (env : HttpEnv) (endpoint v : String) (rest : List String) :
    submitLoop env endpoint (v :: rest)
      = if (env.post (analyzeUrl endpoint v)).status_code = 202
        then (env.post (analyzeUrl endpoint v), [analyzeUrl endpoint v])
        else ((submitLoop env endpoint rest).1,
              analyzeUrl endpoint v :: (submitLoop env endpoint rest).2) := rfl

/-- When every listed version is rejected, the loop posts them all and
then the legacy URL once. -/
theorem submitLoop_all_rejected (env : HttpEnv) (endpoint : String) :
    ∀ vs : List String,
      (∀ v ∈ vs, (env.post (analyzeUrl endpoint v)).status_code ≠ 202) →
      submitLoop env endpoint vs
        = (env.post (legacyUrl endpoint), vs.map (analyzeUrl endpoint) ++ [legacyUrl endpoint]) := by
  intro vs
  induction vs with
  | nil => intro _; rfl
  | cons v rest ih =>
      intro h
      have hv : (env.post (analyzeUrl endpoint v)).status_code ≠ 202 := h v (by simp)
      rw [submitLoop_cons, if_neg hv, ih (fun w hw => h w (by simp [hw]))]
      rfl

/-- The loop stops at the first accepted version: it posts exactly the
rejected versions before it, then the accepted one, and nothing after. -/
theorem submitLoop_first_accepted (env : HttpEnv) (endpoint : String) (v : String) :
    ∀ (pre rest : List String),
      (∀ w ∈ pre, (env.post (analyzeUrl endpoint w)).status_code ≠ 202) →
      (env.post (analyzeUrl endpoint v)).status_code = 202 →
      submitLoop env endpoint (pre ++ v :: rest)
        = (env.post (analyzeUrl endpoint v), (pre ++ [v]).map (analyzeUrl endpoint)) := by
  intro pre
  induction pre with
  | nil =>
      intro rest _ hacc
      rw [List.nil_append, submitLoop_cons, if_pos hacc]
      rfl
  | cons w pre ih =>
      intro rest hpre hacc
      have hw : (env.post (analyzeUrl endpoint w)).status_code ≠ 202 := hpre w (by simp)
      rw [List.cons_append, submitLoop_cons, if_neg hw,
        ih rest (fun u hu => hpre u (by simp [hu])) hacc]
      rfl

/-- The POST trace of the full extraction call is the submission loop's. -/
theorem extract_posts_eq (env : HttpEnv) (ep key : String)
    (hep : ep ≠ "") (hkey : key ≠ "") :
    (extract_text_from_pdf_rest env ep key).posts
      = (submitLoop env (pyRstrip ep '/') api_versions).2 := by
  unfold extract_text_from_pdf_rest
  rw [if_neg (by simp [hkey, hep])]
  by_cases h202 : (submitLoop env (pyRstrip ep '/') api_versions).1.status_code ≠ 202
  · rw [if_pos h202]
    by_cases h401 : (submitLoop env (pyRstrip ep '/') api_versions).1.status_code = 401
    · rw [if_pos h401]
    · rw [if_neg h401]
  · rw [if_neg h202]
    cases hloc : (submitLoop env (pyRstrip ep '/') api_versions).1.operationLocation with
    | none => simp [hloc]
    | some l =>
        simp only [hloc]
        cases hres : (pollLoop env 0 max_attempts).result <;> simp [hres]

/-- C2: the REST gateway posts the fixed version list newest-first and
stops at the first acceptance, never posting a later version or the legacy
URL after a version is accepted; and when every version is rejected it
posts the legacy URL exactly once, after all versions, failing if the
legacy attempt is also rejected. -/
theorem C2_submission_order (env : HttpEnv) (ep key : String)
    (hep : ep ≠ "") (hkey : key ≠ "") :
    (∀ (pre rest : List String) (v : String), api_versions = pre ++ v :: rest →
      (∀ w ∈ pre, (env.post (analyzeUrl (pyRstrip ep '/') w)).status_code ≠ 202) →
      (env.post (analyzeUrl (pyRstrip ep '/') v)).status_code = 202 →
      (extract_text_from_pdf_rest env ep key).posts
        = (pre ++ [v]).map (analyzeUrl (pyRstrip ep '/')))
    ∧ ((∀ v ∈ api_versions, (env.post (analyzeUrl (pyRstrip ep '/') v)).status_code ≠ 202) →
      (extract_text_from_pdf_rest env ep key).posts
        = api_versions.map (analyzeUrl (pyRstrip ep '/')) ++ [legacyUrl (pyRstrip ep '/')]
      ∧ ((env.post (legacyUrl (pyRstrip ep '/'))).status_code ≠ 202 →
          ∃ e, (extract_text_from_pdf_rest env ep key).result = Except.error e)) := by
  constructor
  · intro pre rest v hsplit hpre hacc
    rw [extract_posts_eq env ep key hep hkey, hsplit,
      submitLoop_first_accepted env (pyRstrip ep '/') v pre rest hpre hacc]
  · intro hall
    have hsub := submitLoop_all_rejected env (pyRstrip ep '/') api_versions hall
    refine ⟨by rw [extract_posts_eq env ep key hep hkey, hsub], ?_⟩
    intro hleg
    unfold extract_text_from_pdf_rest
    rw [if_neg (by simp [hkey, hep]), hsub]
    simp only
    rw [if_pos hleg]
    by_cases h401 : (env.post (legacyUrl (pyRstrip ep '/'))).status_code = 401
    · rw [if_pos h401]
      exact ⟨_, rfl⟩
    · rw [if_neg h401]
      exact ⟨_, rfl⟩

/-- C2 witness: a service that accepts only the second version receives
exactly the first two version posts, in order. -/
theorem C2_witness :
    (extract_text_from_pdf_rest secondAcceptEnv "https://e" "k").posts
      = ([ "2024-02-29-preview", "2023-07-31" ].map (analyzeUrl "https://e")) :=
  (C2_submission_order secondAcceptEnv "https://e" "k" (by decide) (by decide)).1
    ["2024-02-29-preview"] ["2022-08-31"] "2023-07-31" rfl
    (by
      intro w hw
      simp only [List.mem_singleton] at hw
      subst hw
      decide)
    (by decide)

/-! ## C3 / C4 / C10 — the polling loop -/

/-- The polling loop issues at most `fuel` GETs and sleeps exactly 2
seconds per GET. -/
theorem pollLoop_budget (env : HttpEnv) :
    ∀ (fuel attempt : Nat),
      (pollLoop env attempt fuel).gets ≤ fuel ∧
      (pollLoop env attempt fuel).sleepSeconds = 2 * (pollLoop env attempt fuel).gets := by
  intro fuel
  induction fuel with
  | zero => intro _; exact ⟨Nat.le_refl 0, rfl⟩
  | succ fuel ih =>
      intro attempt
      obtain ⟨ih1, ih2⟩ := ih (attempt + 1)
      unfold pollLoop
      split
      · exact ⟨Nat.succ_le_succ (Nat.zero_le _), rfl⟩
      · split
        · split
          · split
            · split
              · exact ⟨Nat.succ_le_succ (Nat.zero_le _), rfl⟩
              · exact ⟨Nat.succ_le_succ (Nat.zero_le _), rfl⟩
            · exact ⟨Nat.succ_le_succ (Nat.zero_le _), rfl⟩
          · exact ⟨Nat.succ_le_succ (Nat.zero_le _), rfl⟩
          · exact ⟨Nat.succ_le_succ ih1, by simp; omega⟩
          · exact ⟨Nat.succ_le_succ ih1, by simp; omega⟩
          · exact ⟨Nat.succ_le_succ (Nat.zero_le _), rfl⟩
          · exact ⟨Nat.succ_le_succ (Nat.zero_le _), rfl⟩
        · exact ⟨Nat.succ_le_succ (Nat.zero_le _), rfl⟩

/-- `get?` on an object is the dict lookup. -/
theorem get?_obj (members : List (String × Json)) (key : String) :
    (Json.obj members).get? key = dictGet members key := rfl

/-- If every poll reports `running` with HTTP 200, the loop exhausts its
budget, polling once and sleeping 2 seconds per attempt, and times out. -/
theorem pollLoop_all_running (env : HttpEnv)
    (h : ∀ i, (env.get i).status_code = 200 ∧
        ((env.get i).body.get? "status" = some (Json.str "running") ∨
         (env.get i).body.get? "status" = some (Json.str "notStarted"))) :
    ∀ (fuel attempt : Nat),
      pollLoop env attempt fuel = ⟨.error "Analysis timed out", fuel, 2 * fuel⟩ := by
  intro fuel
  induction fuel with
  | zero => intro _; rfl
  | succ fuel ih =>
      intro attempt
      obtain ⟨h200, hst⟩ := h attempt
      unfold pollLoop
      rw [if_neg (by rw [h200]; simp)]
      cases hbody : (env.get attempt).body with
      | obj members =>
          rw [hbody, get?_obj] at hst
          simp only [hbody]
          have harith : 2 * fuel + 2 = 2 * (fuel + 1) := by omega
          rcases hst with hst | hst <;>
            · rw [hst, ih (attempt + 1), harith]
              rfl
      | null => rw [hbody] at hst; simp [Json.get?] at hst
      | bool b => rw [hbody] at hst; simp [Json.get?] at hst
      | num n => rw [hbody] at hst; simp [Json.get?] at hst
      | str s => rw [hbody] at hst; simp [Json.get?] at hst
      | arr items => rw [hbody] at hst; simp [Json.get?] at hst

/-- A non-200 poll response at attempt `k` (after `k` running polls) stops
the loop immediately: `k + 1` GETs total, error result, no retry. -/
theorem pollLoop_non200_at (env : HttpEnv) :
    ∀ (k attempt fuel : Nat), k < fuel →
      (∀ i, i < k → (env.get (attempt + i)).status_code = 200 ∧
          (env.get (attempt + i)).body.get? "status" = some (Json.str "running")) →
      (env.get (attempt + k)).status_code ≠ 200 →
      pollLoop env attempt fuel
        = ⟨.error ("Failed to get results: " ++ toString (env.get (attempt + k)).status_code
             ++ " - " ++ (env.get (attempt + k)).text), k + 1, 2 * (k + 1)⟩ := by
  intro k
  induction k with
  | zero =>
      intro attempt fuel hk hpre hbad
      cases fuel with
      | zero => omega
      | succ f =>
          simp only [Nat.add_zero] at hbad ⊢
          unfold pollLoop
          rw [if_pos hbad]
  | succ k ih =>
      intro attempt fuel hk hpre hbad
      cases fuel with
      | zero => omega
      | succ f =>
          obtain ⟨h200, hst⟩ := by
            have := hpre 0 (by omega)
            simpa using this
          have harr : attempt + 1 + k = attempt + (k + 1) := by omega
          have hpre2 : ∀ i, i < k → (env.get (attempt + 1 + i)).status_code = 200 ∧
              (env.get (attempt + 1 + i)).body.get? "status" = some (Json.str "running") := by
            intro i hi
            have h2 := hpre (i + 1) (by omega)
            have : attempt + 1 + i = attempt + (i + 1) := by omega
            rw [this]
            exact h2
          have hbad2 : (env.get (attempt + 1 + k)).status_code ≠ 200 := by
            rw [harr]; exact hbad
          have hrec := ih (attempt + 1) f (by omega) hpre2 hbad2
          unfold pollLoop
          rw [if_neg (by rw [h200]; simp)]
          cases hbody : (env.get attempt).body with
          | obj members =>
              rw [hbody, get?_obj] at hst
              simp only [hbody]
              rw [hst, hrec, harr]
              have harith : 2 * (k + 1) + 2 = 2 * (k + 1 + 1) := by omega
              rw [harith]
              rfl
          | null => rw [hbody] at hst; simp [Json.get?] at hst
          | bool b => rw [hbody] at hst; simp [Json.get?] at hst
          | num n => rw [hbody] at hst; simp [Json.get?] at hst
          | str s => rw [hbody] at hst; simp [Json.get?] at hst
          | arr items => rw [hbody] at hst; simp [Json.get?] at hst

/-- Once a submission is accepted and an operation location is present,
the extraction call's polling trace and (wrapped) result are the polling
loop's. -/
theorem extract_poll_phase (env : HttpEnv) (ep key : String)
    (hep : ep ≠ "") (hkey : key ≠ "")
    (hacc : (submitLoop env (pyRstrip ep '/') api_versions).1.status_code = 202)
    (hloc : (submitLoop env (pyRstrip ep '/') api_versions).1.operationLocation.isSome = true) :
    (extract_text_from_pdf_rest env ep key).gets = (pollLoop env 0 max_attempts).gets ∧
    (extract_text_from_pdf_rest env ep key).sleepSeconds
      = (pollLoop env 0 max_attempts).sleepSeconds ∧
    ∀ e, (pollLoop env 0 max_attempts).result = Except.error e →
      (extract_text_from_pdf_rest env ep key).result = Except.error (wrapExtractError e) := by
  unfold extract_text_from_pdf_rest
  rw [if_neg (by simp [hkey, hep]), if_neg (by simp [hacc])]
  cases hl : (submitLoop env (pyRstrip ep '/') api_versions).1.operationLocation with
  | none => rw [hl] at hloc; cases hloc
  | some l =>
      simp only
      cases hres : (pollLoop env 0 max_attempts).result with
      | ok c => simp [hres]
      | error e => simp [hres]

/-- C3: the extraction call issues at most 30 polling GETs and sleeps a
fixed 2 seconds per GET; and with a submission accepted, if every poll
reports `running` the budget is exhausted — exactly 30 polls — and the
call fails with the timeout error. -/
theorem C3_poll_budget (env : HttpEnv) (ep key : String) :
    ((extract_text_from_pdf_rest env ep key).gets ≤ 30 ∧
     (extract_text_from_pdf_rest env ep key).sleepSeconds
       = 2 * (extract_text_from_pdf_rest env ep key).gets) ∧
    (ep ≠ "" → key ≠ "" →
      (submitLoop env (pyRstrip ep '/') api_versions).1.status_code = 202 →
      (submitLoop env (pyRstrip ep '/') api_versions).1.operationLocation.isSome = true →
      (∀ i, (env.get i).status_code = 200 ∧
          ((env.get i).body.get? "status" = some (Json.str "running") ∨
           (env.get i).body.get? "status" = some (Json.str "notStarted"))) →
      (extract_text_from_pdf_rest env ep key).result
          = Except.error (wrapExtractError "Analysis timed out") ∧
        (extract_text_from_pdf_rest env ep key).gets = 30) := by
  constructor
  · have hb := pollLoop_budget env max_attempts 0
    unfold extract_text_from_pdf_rest
    dsimp only
    split
    · exact ⟨Nat.zero_le _, rfl⟩
    · split
      · split
        · exact ⟨Nat.zero_le _, rfl⟩
        · exact ⟨Nat.zero_le _, rfl⟩
      · split
        · exact ⟨Nat.zero_le _, rfl⟩
        · split
          · exact ⟨hb.1, hb.2⟩
          · exact ⟨hb.1, hb.2⟩
  · intro hep hkey hacc hloc hrun
    obtain ⟨hg, _, hr⟩ := extract_poll_phase env ep key hep hkey hacc hloc
    have hp := pollLoop_all_running env hrun max_attempts 0
    constructor
    · exact hr "Analysis timed out" (by rw [hp])
    · rw [hg, hp]
      rfl

/-- C3 witness: the all-`running` service exhausts the budget and the
call times out after 30 polls. -/
theorem C3_witness :
    (extract_text_from_pdf_rest allRunningEnv "https://e" "k").result
        = Except.error (wrapExtractError "Analysis timed out") ∧
      (extract_text_from_pdf_rest allRunningEnv "https://e" "k").gets = 30 :=
  (C3_poll_budget allRunningEnv "https://e" "k").2 (by decide) (by decide) rfl rfl
    (fun _ => ⟨rfl, Or.inl rfl⟩)

/-- C4, counterexample: a 200 poll whose status is `succeeded` but whose
`analyzeResult` value is a string returns no payload — line 324's `.get`
raises `AttributeError`, so this poll yields an error, not the claimed
payload; likewise a numeric `content` raises `TypeError` at line 325's
`len` call. -/
theorem C4_counterexample :
    badPayloadResponse.status_code = 200 ∧
    badPayloadResponse.body.get? "status" = some (Json.str "succeeded") ∧
    (pollLoop (scriptedPollEnv (fun _ => badPayloadResponse)) 0 30).result
      = Except.error "AttributeError: analyzeResult is not a dict" ∧
    (pollLoop (scriptedPollEnv (fun _ => numContentResponse)) 0 30).result
      = Except.error "TypeError: content has no len" :=
  ⟨rfl, rfl, rfl, rfl⟩

/-- C4, amended: with a 200 poll response, the body's status field drives
the dispatch: `succeeded` returns the `analyzeResult.content` payload
provided the `analyzeResult` value (defaulting to an empty dict) is a
dict and the `content` value (defaulting to the empty string) is a sized
value — a non-dict `analyzeResult` raises `AttributeError` and an unsized
`content` raises `TypeError`; `failed` raises with the service-reported
error; `running` and `notStarted` continue to the next attempt; any other
value (or an absent status) raises as an unknown status. -/
theorem C4_status_dispatch (env : HttpEnv) (attempt fuel : Nat)
    (members : List (String × Json))
    (h200 : (env.get attempt).status_code = 200)
    (hbody : (env.get attempt).body = Json.obj members) :
    (∀ ms, dictGet members "status" = some (Json.str "succeeded") →
      dictGetD members "analyzeResult" (Json.obj []) = Json.obj ms →
      pyHasLen (dictGetD ms "content" (Json.str "")) = true →
      pollLoop env attempt (fuel + 1)
        = ⟨Except.ok (dictGetD ms "content" (Json.str "")), 1, 2⟩)
    ∧ (∀ ms, dictGet members "status" = some (Json.str "succeeded") →
      dictGetD members "analyzeResult" (Json.obj []) = Json.obj ms →
      pyHasLen (dictGetD ms "content" (Json.str "")) = false →
      pollLoop env attempt (fuel + 1)
        = ⟨Except.error "TypeError: content has no len", 1, 2⟩)
    ∧ (dictGet members "status" = some (Json.str "succeeded") →
      (∀ ms, dictGetD members "analyzeResult" (Json.obj []) ≠ Json.obj ms) →
      pollLoop env attempt (fuel + 1)
        = ⟨Except.error "AttributeError: analyzeResult is not a dict", 1, 2⟩)
    ∧ (dictGet members "status" = some (Json.str "failed") →
      pollLoop env attempt (fuel + 1)
        = ⟨Except.error ("Analysis failed: " ++ pyStr (dictGetD members "error" (Json.obj []))),
           1, 2⟩)
    ∧ (∀ s, dictGet members "status" = some (Json.str s) →
      (s = "running" ∨ s = "notStarted") →
      pollLoop env attempt (fuel + 1)
        = ⟨(pollLoop env (attempt + 1) fuel).result,
           (pollLoop env (attempt + 1) fuel).gets + 1,
           (pollLoop env (attempt + 1) fuel).sleepSeconds + 2⟩)
    ∧ (∀ v, dictGet members "status" = some v →
      v ≠ Json.str "succeeded" → v ≠ Json.str "failed" →
      v ≠ Json.str "running" → v ≠ Json.str "notStarted" →
      pollLoop env attempt (fuel + 1)
        = ⟨Except.error ("Unknown status: " ++ pyStr v), 1, 2⟩)
    ∧ (dictGet members "status" = none →
      pollLoop env attempt (fuel + 1) = ⟨Except.error "Unknown status: None", 1, 2⟩) := by
  refine ⟨?_, ?_, ?_, ?_, ?_, ?_, ?_⟩
  · intro ms hst hval hlen
    unfold pollLoop
    rw [if_neg (by rw [h200]; simp)]
    simp only [hbody]
    rw [hst]
    simp only [hval]
    rw [if_pos hlen]
  · intro ms hst hval hlen
    unfold pollLoop
    rw [if_neg (by rw [h200]; simp)]
    simp only [hbody]
    rw [hst]
    simp only [hval]
    rw [if_neg (by rw [hlen]; simp)]
  · intro hst hne
    unfold pollLoop
    rw [if_neg (by rw [h200]; simp)]
    simp only [hbody]
    rw [hst]
    cases hval : dictGetD members "analyzeResult" (Json.obj []) with
    | obj ms => exact absurd hval (hne ms)
    | null => rfl
    | bool b => rfl
    | num n => rfl
    | str s => rfl
    | arr items => rfl
  · intro hst
    unfold pollLoop
    rw [if_neg (by rw [h200]; simp)]
    simp only [hbody]
    rw [hst]
    rfl
  · intro s hst hor
    conv_lhs => unfold pollLoop
    rw [if_neg (by rw [h200]; simp)]
    simp only [hbody]
    rw [hst]
    rcases hor with hor | hor <;> subst hor <;> rfl
  · intro v hst h1 h2 h3 h4
    unfold pollLoop
    rw [if_neg (by rw [h200]; simp)]
    simp only [hbody]
    rw [hst]
    split <;> simp_all
  · intro hst
    unfold pollLoop
    rw [if_neg (by rw [h200]; simp)]
    simp only [hbody]
    rw [hst]

/-- C4 witness: each dispatch arm exercised on a concrete scripted
service: `succeeded` with a dict payload returns the content, a numeric
content raises `TypeError`, a string `analyzeResult` raises
`AttributeError`, `failed` raises the reported error, `notStarted`
continues to the next attempt, `paused` and a missing status raise as
unknown. -/
theorem C4_witness :
    pollLoop (scriptedPollEnv (fun _ => succeededResponse)) 0 30
        = ⟨Except.ok (Json.str "TEXT"), 1, 2⟩ ∧
    pollLoop (scriptedPollEnv (fun _ => numContentResponse)) 0 30
        = ⟨Except.error "TypeError: content has no len", 1, 2⟩ ∧
    pollLoop (scriptedPollEnv (fun _ => badPayloadResponse)) 0 30
        = ⟨Except.error "AttributeError: analyzeResult is not a dict", 1, 2⟩ ∧
    pollLoop (scriptedPollEnv (fun _ => failedResponse)) 0 30
        = ⟨Except.error "Analysis failed: bad scan", 1, 2⟩ ∧
    pollLoop (scriptedPollEnv (fun _ => notStartedResponse)) 0 5
        = ⟨(pollLoop (scriptedPollEnv (fun _ => notStartedResponse)) 1 4).result,
           (pollLoop (scriptedPollEnv (fun _ => notStartedResponse)) 1 4).gets + 1,
           (pollLoop (scriptedPollEnv (fun _ => notStartedResponse)) 1 4).sleepSeconds + 2⟩ ∧
    pollLoop (scriptedPollEnv (fun _ => weirdResponse)) 0 30
        = ⟨Except.error "Unknown status: paused", 1, 2⟩ ∧
    pollLoop (scriptedPollEnv (fun _ => noStatusResponse)) 0 30
        = ⟨Except.error "Unknown status: None", 1, 2⟩ := by
  refine ⟨?_, ?_, ?_, ?_, ?_, ?_, ?_⟩
  · exact (C4_status_dispatch (scriptedPollEnv (fun _ => succeededResponse)) 0 29
      [("status", .str "succeeded"), ("analyzeResult", .obj [("content", .str "TEXT")])]
      rfl rfl).1 [("content", .str "TEXT")] rfl rfl rfl
  · exact (C4_status_dispatch (scriptedPollEnv (fun _ => numContentResponse)) 0 29
      [("status", .str "succeeded"), ("analyzeResult", .obj [("content", .num ⟨5, 0⟩)])]
      rfl rfl).2.1 [("content", .num ⟨5, 0⟩)] rfl rfl rfl
  · exact (C4_status_dispatch (scriptedPollEnv (fun _ => badPayloadResponse)) 0 29
      [("status", .str "succeeded"), ("analyzeResult", .str "oops")]
      rfl rfl).2.2.1 rfl
      (by intro ms h; injection (show Json.str "oops" = Json.obj ms from h))
  · exact (C4_status_dispatch (scriptedPollEnv (fun _ => failedResponse)) 0 29
      [("status", .str "failed"), ("error", .str "bad scan")] rfl rfl).2.2.2.1 rfl
  · exact (C4_status_dispatch (scriptedPollEnv (fun _ => notStartedResponse)) 0 4
      [("status", .str "notStarted")] rfl rfl).2.2.2.2.1 "notStarted" rfl (Or.inr rfl)
  · exact (C4_status_dispatch (scriptedPollEnv (fun _ => weirdResponse)) 0 29
      [("status", .str "paused")] rfl rfl).2.2.2.2.2.1 (Json.str "paused") rfl
      (by intro h; injection h with h2; exact absurd h2 (by decide))
      (by intro h; injection h with h2; exact absurd h2 (by decide))
      (by intro h; injection h with h2; exact absurd h2 (by decide))
      (by intro h; injection h with h2; exact absurd h2 (by decide))
  · exact (C4_status_dispatch (scriptedPollEnv (fun _ => noStatusResponse)) 0 29
      [("x", .null)] rfl rfl).2.2.2.2.2.2 rfl

/-- C10: once polling has begun, a single poll response with a non-200
HTTP code (here after `k` running polls, with budget remaining) fails the
extraction call immediately — exactly `k + 1` GETs are issued and the
error carries that response's code and text; the failed poll is never
retried. -/
theorem C10_non200_fail_fast (env : HttpEnv) (ep key : String) (k : Nat)
    (hep : ep ≠ "") (hkey : key ≠ "")
    (hacc : (submitLoop env (pyRstrip ep '/') api_versions).1.status_code = 202)
    (hloc : (submitLoop env (pyRstrip ep '/') api_versions).1.operationLocation.isSome = true)
    (hk : k < max_attempts)
    (hpre : ∀ i, i < k → (env.get i).status_code = 200 ∧
        (env.get i).body.get? "status" = some (Json.str "running"))
    (hbad : (env.get k).status_code ≠ 200) :
    (extract_text_from_pdf_rest env ep key).result
      = Except.error (wrapExtractError ("Failed to get results: "
          ++ toString (env.get k).status_code ++ " - " ++ (env.get k).text)) ∧
    (extract_text_from_pdf_rest env ep key).gets = k + 1 := by
  have hp := pollLoop_non200_at env k 0 max_attempts hk
    (by intro i hi; simpa using hpre i hi) (by simpa using hbad)
  simp only [Nat.zero_add] at hp
  obtain ⟨hg, _, hr⟩ := extract_poll_phase env ep key hep hkey hacc hloc
  constructor
  · exact hr _ (by rw [hp])
  · rw [hg, hp]

/-- C10 witness: one running poll, then an HTTP 500 poll: the call fails
at once with that response's code and text, after exactly two GETs. -/
theorem C10_witness :
    (extract_text_from_pdf_rest (scriptedPollEnv non200Script) "https://e" "k").result
      = Except.error (wrapExtractError ("Failed to get results: "
          ++ toString 500 ++ " - " ++ "boom")) ∧
    (extract_text_from_pdf_rest (scriptedPollEnv non200Script) "https://e" "k").gets = 2 :=
  C10_non200_fail_fast (scriptedPollEnv non200Script) "https://e" "k" 1
    (by decide) (by decide) rfl rfl (by decide)
    (by
      intro i hi
      interval_cases i
      exact ⟨rfl, rfl⟩)
    (by decide)

/-! ## C7 — the aggregate failure message -/

/-- C7, counterexample: with every submission (all three versions and the
legacy endpoint) rejected with HTTP 500 and body `err`, the raised error
describes only the final response's status and text — it does not name the
attempted API versions. -/
theorem C7_counterexample :
    (extract_text_from_pdf_rest allRejectedEnv "https://e" "k").result
      = Except.error
          "Error extracting text from PDF: Failed to start analysis: Status: 500, Response: err" ∧
    pyContains
      "Error extracting text from PDF: Failed to start analysis: Status: 500, Response: err"
      "2024-02-29-preview" = false ∧
    pyContains
      "Error extracting text from PDF: Failed to start analysis: Status: 500, Response: err"
      "2023-07-31" = false := by
  refine ⟨rfl, ?_, ?_⟩ <;> decide

/-- C7, amended: when no submission is ever accepted (and the final legacy
response is not a 401), the call fails with a single error naming only the
final legacy attempt's status code and response body, wrapped by the outer
handler; the per-version statuses are not part of the raised error. -/
theorem C7_failure_message (env : HttpEnv) (ep key : String)
    (hep : ep ≠ "") (hkey : key ≠ "")
    (hall : ∀ v ∈ api_versions, (env.post (analyzeUrl (pyRstrip ep '/') v)).status_code ≠ 202)
    (hleg : (env.post (legacyUrl (pyRstrip ep '/'))).status_code ≠ 202)
    (hleg401 : (env.post (legacyUrl (pyRstrip ep '/'))).status_code ≠ 401) :
    (extract_text_from_pdf_rest env ep key).result
      = Except.error (wrapExtractError ("Failed to start analysis: "
          ++ ("Status: " ++ toString (env.post (legacyUrl (pyRstrip ep '/'))).status_code
              ++ ", Response: " ++ (env.post (legacyUrl (pyRstrip ep '/'))).text))) := by
  have hsub := submitLoop_all_rejected env (pyRstrip ep '/') api_versions hall
  unfold extract_text_from_pdf_rest
  rw [if_neg (by simp [hkey, hep])]
  dsimp only
  rw [hsub]
  dsimp only
  rw [if_pos hleg, if_neg hleg401]

/-- C7 witness: the amended description instantiated on the all-rejected
service. -/
theorem C7_witness :
    (extract_text_from_pdf_rest allRejectedEnv "https://e" "k").result
      = Except.error (wrapExtractError ("Failed to start analysis: "
          ++ ("Status: " ++ toString 500 ++ ", Response: " ++ "err"))) :=
  C7_failure_message allRejectedEnv "https://e" "k" (by decide) (by decide)
    (by
      intro v hv
      simp [api_versions] at hv
      rcases hv with h | h | h <;> subst h <;> decide)
    (by decide) (by decide)

/-! ## C8 — segmentation conservation -/

/-- Non-whitespace counting distributes over string append. -/
theorem nonWsCount_append (a b : String) :
    nonWsCount (a ++ b) = nonWsCount a + nonWsCount b := by
  have h : (a ++ b).toList = a.toList ++ b.toList := rfl
  simp [nonWsCount, h, List.filter_append]

/-- Joining with an all-whitespace separator preserves the non-whitespace
character total. -/
theorem nonWsCount_pyJoin (sep : String) (hsep : nonWsCount sep = 0) :
    ∀ l : List String, nonWsCount (pyJoin sep l) = (l.map nonWsCount).sum := by
  intro l
  induction l with
  | nil => simp [pyJoin, nonWsCount]
  | cons x xs ih =>
      cases xs with
      | nil => simp [pyJoin]
      | cons y ys =>
          show nonWsCount (x ++ sep ++ pyJoin sep (y :: ys)) = _
          rw [nonWsCount_append, nonWsCount_append, hsep, ih]
          simp

/-- Per-line unfolding of the non-header character total. -/
theorem nonHeaderInputChars_cons (line : String) (rest : List String) :
    nonHeaderInputChars (line :: rest)
      = lineContribution line + nonHeaderInputChars rest := by
  simp [nonHeaderInputChars]

/-- Blank lines contribute nothing to the non-header total. -/
theorem lineContribution_blank (line : String) (h : pyStripString line = "") :
    lineContribution line = 0 := by
  simp [lineContribution, h]

/-- Header-classified lines contribute nothing to the non-header total. -/
theorem lineContribution_header (line : String)
    (h : classifiesAsHeader (pyStripString line) = true) :
    lineContribution line = 0 := by
  unfold lineContribution
  dsimp only
  by_cases hb : pyStripString line = ""
  · rw [if_pos hb]
  · rw [if_neg hb, if_pos h]

/-- Non-blank non-header lines contribute their stripped non-whitespace
count. -/
theorem lineContribution_content (line : String)
    (hnb : pyStripString line ≠ "")
    (hnh : classifiesAsHeader (pyStripString line) = false) :
    lineContribution line = nonWsCount (pyStripString line) := by
  unfold lineContribution
  dsimp only
  rw [if_neg hnb, if_neg (by rw [hnh]; simp)]

/-- Invariant of the segmentation loop: with a section open, the
non-whitespace characters already banked (finished sections, the open
section, the paragraph buffer) plus those of the remaining non-header
input lines never exceed the total of the final section list — nothing
further is dropped. -/
theorem segLines_S_ge (lines : List String) :
    ∀ (secs : List String) (sec : String) (par : List String),
      (secs.map nonWsCount).sum + nonWsCount sec + (par.map nonWsCount).sum
          + nonHeaderInputChars lines
        ≤ ((segLines lines secs (some sec) par).map nonWsCount).sum := by
  induction lines with
  | nil =>
      intro secs sec par
      cases par with
      | nil =>
          show _ ≤ ((secs ++ [sec]).map nonWsCount).sum
          simp [nonHeaderInputChars]
      | cons p ps =>
          show _ ≤ ((secs ++ [sec ++ " " ++ pyJoin " " (p :: ps)]).map nonWsCount).sum
          have hj := nonWsCount_pyJoin " " (by decide) (p :: ps)
          simp [nonHeaderInputChars, nonWsCount_append, hj]
          omega
  | cons line rest ih =>
      intro secs sec par
      rw [show segLines (line :: rest) secs (some sec) par
          = segFinish (rest.foldl segStep (segStep ⟨secs, some sec, par⟩ line)) from rfl,
        nonHeaderInputChars_cons]
      by_cases hblank : pyStripString line = ""
      · rw [lineContribution_blank line hblank]
        cases par with
        | nil =>
            have hstep : segStep ⟨secs, some sec, []⟩ line = ⟨secs, some sec, []⟩ := by
              simp [segStep, hblank]
            rw [hstep]
            have h2 := ih secs sec []
            simp only [segLines] at h2
            simp at h2 ⊢
            omega
        | cons p ps =>
            have hstep : segStep ⟨secs, some sec, p :: ps⟩ line
                = ⟨secs, some (sec ++ " " ++ pyJoin " " (p :: ps)), []⟩ := by
              simp [segStep, hblank]
            rw [hstep]
            have h2 := ih secs (sec ++ " " ++ pyJoin " " (p :: ps)) []
            simp only [segLines] at h2
            have hj := nonWsCount_pyJoin " " (by decide) (p :: ps)
            rw [nonWsCount_append, nonWsCount_append, hj] at h2
            simp at h2 ⊢
            omega
      · by_cases hhd : classifiesAsHeader (pyStripString line) = true
        · rw [lineContribution_header line hhd]
          cases par with
          | nil =>
              have hstep : segStep ⟨secs, some sec, []⟩ line
                  = ⟨secs ++ [sec],
                     some ("\n\n=== " ++ pyUpper (pyStripString line) ++ " ===\n"), []⟩ := by
                simp [segStep, hblank, hhd]
              rw [hstep]
              have h2 := ih (secs ++ [sec])
                ("\n\n=== " ++ pyUpper (pyStripString line) ++ " ===\n") []
              simp only [segLines] at h2
              simp at h2 ⊢
              omega
          | cons p ps =>
              have hstep : segStep ⟨secs, some sec, p :: ps⟩ line
                  = ⟨secs ++ [sec ++ " " ++ pyJoin " " (p :: ps)],
                     some ("\n\n=== " ++ pyUpper (pyStripString line) ++ " ===\n"), []⟩ := by
                simp [segStep, hblank, hhd]
              rw [hstep]
              have h2 := ih (secs ++ [sec ++ " " ++ pyJoin " " (p :: ps)])
                ("\n\n=== " ++ pyUpper (pyStripString line) ++ " ===\n") []
              simp only [segLines] at h2
              have hj := nonWsCount_pyJoin " " (by decide) (p :: ps)
              simp [nonWsCount_append, hj] at h2 ⊢
              omega
        · have hhd2 : classifiesAsHeader (pyStripString line) = false := by
            simpa using hhd
          rw [lineContribution_content line hblank hhd2]
          by_cases hflush :
              (pyEndsWith (pyStripString line) "." || pyEndsWith (pyStripString line) ":"
                || decide ((par ++ [pyStripString line]).length > 3)) = true
          · have hstep : segStep ⟨secs, some sec, par⟩ line
                = ⟨secs,
                   some (sec ++ " " ++ pyJoin " " (par ++ [pyStripString line]) ++ "\n"),
                   []⟩ := by
              simp only [segStep]
              rw [if_neg hblank, if_neg (by rw [hhd2]; simp)]
              rw [if_pos (by simpa using hflush)]
            rw [hstep]
            have h2 := ih secs
              (sec ++ " " ++ pyJoin " " (par ++ [pyStripString line]) ++ "\n") []
            simp only [segLines] at h2
            have hj := nonWsCount_pyJoin " " (by decide) (par ++ [pyStripString line])
            rw [nonWsCount_append, nonWsCount_append, nonWsCount_append, hj] at h2
            simp at h2 ⊢
            omega
          · have hstep : segStep ⟨secs, some sec, par⟩ line
                = ⟨secs, some sec, par ++ [pyStripString line]⟩ := by
              simp only [segStep]
              rw [if_neg hblank, if_neg (by rw [hhd2]; simp)]
              rw [if_neg (by simpa using hflush)]
            rw [hstep]
            have h2 := ih secs sec (par ++ [pyStripString line])
            simp only [segLines] at h2
            simp at h2 ⊢
            omega

/-- A line-loop step never closes an open section. -/
theorem segStep_keeps_open (st : SegState) (line : String)
    (h : st.curSec.isSome = true) : (segStep st line).curSec.isSome = true := by
  obtain ⟨secs, cur, par⟩ := st
  cases cur with
  | none => simp at h
  | some sec =>
      simp only [segStep]
      split
      · split <;> simp
      · split
        · split <;> simp
        · split <;> simp

/-- The whole line loop never closes an open section. -/
theorem segFold_keeps_open (lines : List String) :
    ∀ st : SegState, st.curSec.isSome = true →
      (lines.foldl segStep st).curSec.isSome = true := by
  induction lines with
  | nil => intro st h; exact h
  | cons line rest ih =>
      intro st h
      exact ih (segStep st line) (segStep_keeps_open st line h)

/-- Finishing a page with a section open yields a non-empty section list. -/
theorem segFinish_ne_nil (st : SegState) (h : st.curSec.isSome = true) :
    segFinish st ≠ [] := by
  obtain ⟨secs, cur, par⟩ := st
  cases cur with
  | none => simp at h
  | some sec =>
      simp only [segFinish]
      cases par <;> simp

/-- Blank lines before any content leave the loop state unchanged. -/
theorem segFold_blank_start (blanks : List String)
    (hblanks : ∀ b ∈ blanks, pyStripString b = "") :
    ∀ ls : List String, ∀ secs : List String, ∀ cur : Option String,
      (blanks ++ ls).foldl segStep ⟨secs, cur, []⟩ = ls.foldl segStep ⟨secs, cur, []⟩ := by
  induction blanks with
  | nil => intro ls secs cur; rfl
  | cons b bs ih =>
      intro ls secs cur
      have hb : pyStripString b = "" := hblanks b (by simp)
      have hstep : segStep ⟨secs, cur, []⟩ b = ⟨secs, cur, []⟩ := by
        simp [segStep, hb]
      rw [List.cons_append, List.foldl_cons, hstep,
        ih (fun x hx => hblanks x (by simp [hx])) ls secs cur]

/-- The non-header total distributes over appended line lists. -/
theorem nonHeaderInputChars_append (a b : List String) :
    nonHeaderInputChars (a ++ b) = nonHeaderInputChars a + nonHeaderInputChars b := by
  simp [nonHeaderInputChars]

/-- Blank lines carry no non-header characters at all. -/
theorem nonHeaderInputChars_blanks (blanks : List String)
    (hblanks : ∀ b ∈ blanks, pyStripString b = "") :
    nonHeaderInputChars blanks = 0 := by
  induction blanks with
  | nil => rfl
  | cons b bs ih =>
      rw [nonHeaderInputChars_cons, lineContribution_blank b (hblanks b (by simp)),
        ih (fun x hx => hblanks x (by simp [hx]))]

/-- C8, amended: provided no content line precedes the first detected
header (only blank lines may come before it), segmentation never drops
non-blank input lines — the non-whitespace characters of the segmented
output are at least those of the non-header input lines. -/
theorem C8_conservation (c : String) (blanks : List String) (h : String)
    (rest : List String)
    (hblanks : ∀ b ∈ blanks, pyStripString b = "")
    (hnb : pyStripString h ≠ "")
    (hhd : classifiesAsHeader (pyStripString h) = true) :
    nonHeaderInputChars (blanks ++ h :: rest)
      ≤ nonWsCount (extract_structured_content ⟨c, [⟨blanks ++ h :: rest⟩]⟩) := by
  have hskip := segFold_blank_start blanks hblanks (h :: rest) [] none
  have hstep : segStep ⟨[], none, []⟩ h
      = ⟨[], some ("\n\n=== " ++ pyUpper (pyStripString h) ++ " ===\n"), []⟩ := by
    simp [segStep, hnb, hhd]
  have hseg : segLines (blanks ++ h :: rest) [] none []
      = segLines rest [] (some ("\n\n=== " ++ pyUpper (pyStripString h) ++ " ===\n")) [] := by
    simp only [segLines]
    rw [hskip, List.foldl_cons, hstep]
  have hopen : (rest.foldl segStep
      ⟨[], some ("\n\n=== " ++ pyUpper (pyStripString h) ++ " ===\n"), []⟩).curSec.isSome
        = true :=
    segFold_keeps_open rest _ rfl
  have hne : segLines (blanks ++ h :: rest) [] none [] ≠ [] := by
    rw [hseg]
    exact segFinish_ne_nil _ hopen
  have hout : extract_structured_content ⟨c, [⟨blanks ++ h :: rest⟩]⟩
      = pyJoin "\n" (segLines (blanks ++ h :: rest) [] none []) := by
    show (if segLines (blanks ++ h :: rest) [] none [] = [] then c
          else pyJoin "\n" (segLines (blanks ++ h :: rest) [] none []))
        = pyJoin "\n" (segLines (blanks ++ h :: rest) [] none [])
    rw [if_neg hne]
  rw [hout, hseg, nonWsCount_pyJoin "\n" (by decide),
    nonHeaderInputChars_append, nonHeaderInputChars_blanks blanks hblanks,
    nonHeaderInputChars_cons, lineContribution_header h hhd]
  have hinv := segLines_S_ge rest []
    ("\n\n=== " ++ pyUpper (pyStripString h) ++ " ===\n") []
  simp at hinv ⊢
  omega

/-- C8, counterexample: a bullet line flushed before any section exists is
silently dropped — the segmented output retains fewer non-whitespace
characters of non-header lines than the input supplied. -/
theorem C8_counterexample :
    nonWsCount (extract_structured_content ⟨"", [⟨droppedLines⟩]⟩)
      < nonHeaderInputChars droppedLines := by
  decide

/-- C8 witness: with the header first, a following paragraph line is kept
in full. -/
theorem C8_witness :
    nonHeaderInputChars ["", "SKILLS", "knows Python and SQL quite well."]
      ≤ nonWsCount (extract_structured_content
          ⟨"", [⟨["", "SKILLS", "knows Python and SQL quite well."]⟩]⟩) :=
  C8_conservation "" [""] "SKILLS" ["knows Python and SQL quite well."]
    (by intro b hb; simp at hb; subst hb; rfl) (by decide) (by decide)
